import Mathlib

/-!
Shallow embedding of the irida-uploader core: the upload orchestrator
(`src/core/cli_entry.py`) and the NextSeq parser
(`src/iridauploader/parsers/nextseq/parser.py`).

External collaborators (status store, parsing handler, api handler) are
modelled by an environment of outcomes; the orchestrator is a pure function
from that environment and the on-disk marker to a run outcome recording the
exit result, the final marker, whether upload was invoked, and the list of
statuses passed to `write_directory_status`.

A faithfulness note on logging: the source calls `logging.ERROR(msg)` in
three except-handlers (cli_entry.py lines 33, 95, 143). In Python,
`logging.ERROR` is the integer level constant 40, so these calls raise
`TypeError: int object is not callable`, which no surrounding handler
catches. The embedding models each such call as an unhandled `TypeError`.
All lowercase `logging.error` / `logging.info` / `logging.debug` calls are
side-effect free and are modelled as no-ops.
-/

namespace IridaUploader

/-- Directory status tokens of the progress module (`upload_status.DIRECTORY_STATUS_*`).
The progress module itself is not under src; the five tokens are taken from the
spec data model and from the three constants the orchestrator uses. -/
inductive DirectoryStatus
  | NEW
  | PARTIAL
  | COMPLETE
  | ERROR
  | INVALID
deriving DecidableEq, Repr

/-- Unhandled Python exceptions the orchestrator can let escape. -/
inductive PyExc
  | typeError       -- from calling the int constant logging.ERROR
  | directoryError  -- the re-raised parsers.exceptions.DirectoryError
deriving DecidableEq, Repr

/-- Result of an orchestrator entry point: a returned exit code, or an
exception that propagates out of the function unhandled. -/
inductive ExitOutcome
  | code : Nat → ExitOutcome
  | unhandled : PyExc → ExitOutcome
deriving DecidableEq, Repr

/-- Entries of a ValidationResult: the exception objects the pipeline adds via
`validation_result.add_error(...)`, plus the structural errors produced by the
validator. -/
inductive ValidationErrorEntry
  | dirErrorEntry (message directory : String)
  | sheetErrorEntry (message : String)
  | seqFileErrorEntry (message : String)
  | duplicateSampleEntry (sample_id project_id : String)
deriving DecidableEq, Repr

/-- The model.ValidationResult: an ordered sequence of validation errors. -/
structure ValidationResult where
  error_list : List ValidationErrorEntry
deriving DecidableEq, Repr

def ValidationResult.is_valid (v : ValidationResult) : Bool :=
  v.error_list.isEmpty

def ValidationResult.error_count (v : ValidationResult) : Nat :=
  v.error_list.length

def ValidationResult.add_error (v : ValidationResult) (e : ValidationErrorEntry) :
    ValidationResult :=
  ⟨v.error_list ++ [e]⟩

/-- A sample of the run model: identifier, project, and resolved sequence files. -/
structure Sample where
  sample_id : String
  project_id : String
  files : List String
deriving DecidableEq, Repr

/-- Run-level metadata parsed from the sample sheet header. -/
structure SampleSheetMetadata where
  header : List (String × String)
deriving DecidableEq, Repr

/-- The immutable run model assembled after validation. -/
structure SequencingRun where
  metadata : SampleSheetMetadata
  sample_list : List Sample
deriving DecidableEq, Repr

/-- Outcome of `parsing_handler.parse_and_validate(directory)` as observed by
the orchestrator: a run, a `parsers.exceptions.DirectoryError`, or a
`parsers.exceptions.ValidationError` carrying a validation result. -/
inductive ParseOutcome
  | ok (run : SequencingRun)
  | dirError (message directory : String)
  | invalidRun (message : String) (validation_result : ValidationResult)
deriving DecidableEq, Repr

/-- Outcome of `api_handler.prepare_and_validate_for_upload`: connectivity
lost (`IridaConnectionError`), or a structurally returned validation result. -/
inductive OnlineOutcome
  | connLost
  | result (validation_result : ValidationResult)
deriving DecidableEq, Repr

/-- Outcome of `parsing_handler.get_first_new_run(directory)`: a raised
`DirectoryError`, no new run (None), or a found run directory. -/
inductive ScanOutcome
  | dirError (message directory : String)
  | noneFound
  | found
deriving DecidableEq, Repr

/-- The behavior of the external collaborators during one orchestrator
invocation: whether each of the three possible status writes raises
`DirectoryError`, and the outcomes of parsing, connecting, online validation
and upload. -/
structure ApiEnv where
  writePartialFails : Bool
  parseOutcome : ParseOutcome
  connectFails : Bool
  onlineOutcome : OnlineOutcome
  uploadFails : Bool
  writeCompleteFails : Bool
  writeErrorFails : Bool
deriving DecidableEq, Repr

/-- Observable outcome of one orchestrator invocation. `finalStatus` is the
on-disk marker after the call (a failed write leaves the prior marker);
`writes` records the status argument of every `write_directory_status` call,
attempted or successful; `uploadCalled` records whether
`api_handler.upload_sequencing_run` was invoked. -/
structure RunOutcome where
  exit : ExitOutcome
  finalStatus : Option DirectoryStatus
  uploadCalled : Bool
  writes : List DirectoryStatus
deriving DecidableEq, Repr

/-- The function `exit_error(run_directory=None)` of cli_entry.py. When a run
directory is given it writes the ERROR status; if that write raises
`DirectoryError`, the handler calls `logging.ERROR(...)` — the int constant —
which raises an unhandled TypeError. Returns the exit code 1 otherwise.
Result: (exit result, marker after, statuses passed to write_directory_status). -/
def exit_error (writeErrorFails : Bool) (disk : Option DirectoryStatus)
    (hasRunDir : Bool) : ExitOutcome × Option DirectoryStatus × List DirectoryStatus :=
  if hasRunDir then
    if writeErrorFails then
      (ExitOutcome.unhandled PyExc.typeError, disk, [DirectoryStatus.ERROR])
    else
      (ExitOutcome.code 1, some DirectoryStatus.ERROR, [DirectoryStatus.ERROR])
  else
    (ExitOutcome.code 1, disk, [])

/-- The function `validate_and_upload_single_entry(directory)` of cli_entry.py,
as a function of the collaborator environment and the marker on disk before
the call. Stage order and handlers follow the source:
write PARTIAL; parse and validate; connect; online-validate; upload;
write COMPLETE. -/
def validate_and_upload_single_entry (env : ApiEnv) (disk0 : Option DirectoryStatus) :
    RunOutcome :=
  -- write_directory_status(directory, DIRECTORY_STATUS_PARTIAL)
  if env.writePartialFails then
    -- except DirectoryError: the handler calls logging.ERROR, raising TypeError
    -- before `return exit_error()` is reached
    { exit := ExitOutcome.unhandled PyExc.typeError, finalStatus := disk0,
      uploadCalled := false, writes := [DirectoryStatus.PARTIAL] }
  else
    let disk1 : Option DirectoryStatus := some DirectoryStatus.PARTIAL
    match env.parseOutcome with
    | ParseOutcome.dirError _ _ =>
        -- except parsers.exceptions.DirectoryError: return exit_error(directory)
        let (e, d, w) := exit_error env.writeErrorFails disk1 true
        { exit := e, finalStatus := d, uploadCalled := false,
          writes := DirectoryStatus.PARTIAL :: w }
    | ParseOutcome.invalidRun _ _ =>
        -- except parsers.exceptions.ValidationError: return exit_error(directory)
        let (e, d, w) := exit_error env.writeErrorFails disk1 true
        { exit := e, finalStatus := d, uploadCalled := false,
          writes := DirectoryStatus.PARTIAL :: w }
    | ParseOutcome.ok _run =>
        if env.connectFails then
          -- except api.exceptions.IridaConnectionError: return exit_error(directory)
          let (e, d, w) := exit_error env.writeErrorFails disk1 true
          { exit := e, finalStatus := d, uploadCalled := false,
            writes := DirectoryStatus.PARTIAL :: w }
        else
          match env.onlineOutcome with
          | OnlineOutcome.connLost =>
              -- except api.exceptions.IridaConnectionError: return exit_error(directory)
              let (e, d, w) := exit_error env.writeErrorFails disk1 true
              { exit := e, finalStatus := d, uploadCalled := false,
                writes := DirectoryStatus.PARTIAL :: w }
          | OnlineOutcome.result validation_result =>
              if validation_result.is_valid = false then
                -- not validation_result.is_valid(): return exit_error(directory)
                let (e, d, w) := exit_error env.writeErrorFails disk1 true
                { exit := e, finalStatus := d, uploadCalled := false,
                  writes := DirectoryStatus.PARTIAL :: w }
              else
                -- api_handler.upload_sequencing_run(sequencing_run)
                if env.uploadFails then
                  -- except api.exceptions.IridaConnectionError: return 1
                  { exit := ExitOutcome.code 1, finalStatus := disk1,
                    uploadCalled := true, writes := [DirectoryStatus.PARTIAL] }
                else
                  -- write_directory_status(directory, DIRECTORY_STATUS_COMPLETE)
                  if env.writeCompleteFails then
                    -- except DirectoryError: handler calls logging.ERROR, raising TypeError
                    { exit := ExitOutcome.unhandled PyExc.typeError, finalStatus := disk1,
                      uploadCalled := true,
                      writes := [DirectoryStatus.PARTIAL, DirectoryStatus.COMPLETE] }
                  else
                    -- return exit_success()
                    { exit := ExitOutcome.code 0,
                      finalStatus := some DirectoryStatus.COMPLETE,
                      uploadCalled := true,
                      writes := [DirectoryStatus.PARTIAL, DirectoryStatus.COMPLETE] }

/-- The function `upload_first_new_run(directory)` of cli_entry.py: scans for
the first new run; on a `DirectoryError` from the scan it re-raises (`raise e`);
on None it returns `exit_success()`; otherwise it delegates to
`validate_and_upload_single_entry` (whose environment and the found run
directory marker are given). -/
def upload_first_new_run (scan : ScanOutcome) (env : ApiEnv)
    (disk0 : Option DirectoryStatus) : RunOutcome :=
  match scan with
  | ScanOutcome.dirError _ _ =>
      { exit := ExitOutcome.unhandled PyExc.directoryError, finalStatus := disk0,
        uploadCalled := false, writes := [] }
  | ScanOutcome.noneFound =>
      { exit := ExitOutcome.code 0, finalStatus := disk0,
        uploadCalled := false, writes := [] }
  | ScanOutcome.found => validate_and_upload_single_entry env disk0

/-!
The NextSeq parser (`src/iridauploader/parsers/nextseq/parser.py`).

A run directory, for the purposes of `Parser.get_sample_sheet`, is modelled by
its path, whether `os.access(directory, os.W_OK)` holds, and the file list
returned by `common.get_file_list(directory)`.
-/

/-- The constant `Parser.SAMPLE_SHEET_FILE_NAME`. -/
def SAMPLE_SHEET_FILE_NAME : String := "SampleSheet.csv"

/-- The constant `Parser.UPLOAD_COMPLETE_FILE_NAME`. -/
def UPLOAD_COMPLETE_FILE_NAME : String := "RTAComplete.txt"

/-- The list returned by `Parser.get_required_file_list()`. -/
def get_required_file_list : List String :=
  [SAMPLE_SHEET_FILE_NAME, UPLOAD_COMPLETE_FILE_NAME]

/-- A run directory as observed by the parser: its path, whether the process
may access it (`os.access(directory, os.W_OK)`), and the names of the files
it contains (`common.get_file_list(directory)`). -/
structure RunDirectory where
  path : String
  accessible : Bool
  files : List String
deriving DecidableEq, Repr

/-- A raised `parsers.exceptions.DirectoryError`: message and directory. -/
structure DirectoryErrorExc where
  message : String
  directory : String
deriving DecidableEq, Repr

/-- The path concatenation `os.path.join(directory, file_name)`. -/
def os_path_join (directory file_name : String) : String :=
  directory ++ "/" ++ file_name

/-- The static method `Parser.get_sample_sheet(directory)`: raises
`DirectoryError` when the directory is not accessible, raises `DirectoryError`
when no file named SampleSheet.csv is in the file list, and otherwise returns
`os.path.join(directory, sample_sheet_file_name)`. -/
def get_sample_sheet (d : RunDirectory) : Except DirectoryErrorExc String :=
  if d.accessible = false then
    Except.error ⟨"The directory is not accessible, can not parse samples from this directory "
        ++ d.path, d.path⟩
  else
    if (d.files.contains SAMPLE_SHEET_FILE_NAME) = false then
      Except.error ⟨"The directory " ++ d.path ++ " has no sample sheet file in the NextSeq format"
          ++ " with the name " ++ SAMPLE_SHEET_FILE_NAME, d.path⟩
    else
      Except.ok (os_path_join d.path SAMPLE_SHEET_FILE_NAME)

/-!
The parse-and-validate pipeline `Parser.get_sequencing_run`. The sample sheet
content is modelled as a header plus sample-table rows. The collaborators
`validation.validate_sample_sheet`, `sample_parser.parse_metadata`,
`sample_parser.parse_sample_list` and
`common.build_sequencing_run_from_samples` are not under src and are modelled
from the spec, each marked in its doc comment.
-/

/-- One row of the sample table of a sample sheet: sample identifier, project
identifier, and the sequence file names the row references. -/
structure SampleRow where
  sample_id : String
  project_id : String
  file_names : List String
deriving DecidableEq, Repr

/-- A parsed-in-memory sample sheet: the header section and the sample table.
`header_malformed` records whether the header section has missing required
keys or unparsable values. -/
structure SampleSheet where
  header : List (String × String)
  header_malformed : Bool
  rows : List SampleRow
deriving DecidableEq, Repr

/-- Modelled from the spec: the duplicate check of
`validation.validate_sample_sheet` (module not under src). Duplicate sample
identifiers within the same project are an error attributed to the second
occurrence; the first occurrence is never flagged; every row is checked. -/
def duplicate_row_errors (seen : List (String × String)) :
    List SampleRow → List ValidationErrorEntry
  | [] => []
  | r :: rest =>
      if (seen.contains (r.sample_id, r.project_id)) = true then
        ValidationErrorEntry.duplicateSampleEntry r.sample_id r.project_id
          :: duplicate_row_errors seen rest
      else
        duplicate_row_errors ((r.sample_id, r.project_id) :: seen) rest

/-- Modelled from the spec: `validation.validate_sample_sheet(sheet)` (module
not under src). Structural checks are non-short-circuiting: every row is
checked and every discovered problem is appended to one ValidationResult. -/
def validate_sample_sheet (sheet : SampleSheet) : ValidationResult :=
  ⟨duplicate_row_errors [] sheet.rows⟩

/-- Modelled from the spec: `sample_parser.parse_metadata(sheet)` (module not
under src). Parses the header section into metadata; fails with
`SampleSheetError` on malformed header rows. -/
def parse_metadata (sheet : SampleSheet) : Except String SampleSheetMetadata :=
  if sheet.header_malformed then
    Except.error "malformed header section"
  else
    Except.ok ⟨sheet.header⟩

/-- Modelled from the spec: whether one sample row's sequence files can be
resolved against the data directory file list — the row references at least
one file and every referenced file is present in the list. -/
def row_resolvable (file_list : List String) (r : SampleRow) : Bool :=
  (r.file_names.isEmpty = false) && r.file_names.all (fun f => file_list.contains f)

/-- Modelled from the spec: the row loop of `sample_parser.parse_sample_list`
(module not under src). Each row is processed in order; a resolvable row
yields a sample, an unresolvable row yields a `SequenceFileError` entry, and
in either case processing continues with the remaining rows. -/
def parse_rows (file_list : List String) :
    List SampleRow → List Sample × List ValidationErrorEntry
  | [] => ([], [])
  | r :: rest =>
      let (samples, errs) := parse_rows file_list rest
      if row_resolvable file_list r then
        (⟨r.sample_id, r.project_id, r.file_names⟩ :: samples, errs)
      else
        (samples,
          ValidationErrorEntry.seqFileErrorEntry
            ("could not resolve sequence files for sample " ++ r.sample_id) :: errs)

/-- Modelled from the spec:
`sample_parser.parse_sample_list(sheet, data_dir, file_list)` (module not
under src). All rows are processed; at the end of the stage, if any row-level
errors were accumulated, one `SequenceFileError` carrying them all is raised;
otherwise the full sample list is returned. -/
def parse_sample_list (sheet : SampleSheet) (file_list : List String) :
    Except (List ValidationErrorEntry) (List Sample) :=
  let (samples, errs) := parse_rows file_list sheet.rows
  if errs.isEmpty then Except.ok samples else Except.error errs

/-- Modelled from the spec:
`common.build_sequencing_run_from_samples(sample_list, metadata)` (module not
under src). Fails with `SequenceFileError` if any sample has zero files;
otherwise a pure assembly of the run model. -/
def build_sequencing_run_from_samples (sample_list : List Sample)
    (metadata : SampleSheetMetadata) : Except String SequencingRun :=
  if sample_list.any (fun s => s.files.isEmpty) then
    Except.error "sample with no sequence files after parsing"
  else
    Except.ok ⟨metadata, sample_list⟩

/-- A raised `parsers.exceptions.ValidationError`: message plus the attached
validation result. -/
structure ValidationErrorExc where
  message : String
  validation_result : ValidationResult
deriving DecidableEq, Repr

/-- The static method `Parser.get_sequencing_run(sample_sheet, run_data_directory,
run_data_directory_file_list)`. `data_dir_lookup` models the filesystem walk
(`get_full_data_directory` + `common.get_file_list`) performed only when no
file list is supplied; it yields the data directory file list or raises
`DirectoryError`. The stage structure follows the source: resolve the file
list; validate the sheet; parse metadata; parse samples and build the run —
each failure raising `ValidationError` with the validation result of its own
stage attached. -/
def get_sequencing_run (sheet : SampleSheet)
    (data_dir_lookup : Except DirectoryErrorExc (List String))
    (run_data_directory_file_list : Option (List String)) :
    Except ValidationErrorExc SequencingRun :=
  -- validation_result = model.ValidationResult()
  let validation_result : ValidationResult := ⟨[]⟩
  match (match run_data_directory_file_list with
         | some fl => Except.ok fl
         | none => data_dir_lookup) with
  | Except.error e =>
      Except.error ⟨"Errors occurred while parsing files",
        validation_result.add_error (ValidationErrorEntry.dirErrorEntry e.message e.directory)⟩
  | Except.ok file_list =>
      -- validation_result = validation.validate_sample_sheet(sample_sheet)
      let validation_result := validate_sample_sheet sheet
      if validation_result.is_valid = false then
        Except.error ⟨"Errors occurred while getting sample sheet", validation_result⟩
      else
        -- validation_result = model.ValidationResult()
        let validation_result : ValidationResult := ⟨[]⟩
        match parse_metadata sheet with
        | Except.error m =>
            Except.error ⟨"Errors occurred while parsing metadata",
              validation_result.add_error (ValidationErrorEntry.sheetErrorEntry m)⟩
        | Except.ok run_metadata =>
            match parse_sample_list sheet file_list with
            | Except.error row_errors =>
                Except.error ⟨"Errors occurred while building sequence run from sample sheet",
                  ⟨validation_result.error_list ++ row_errors⟩⟩
            | Except.ok sample_list =>
                match build_sequencing_run_from_samples sample_list run_metadata with
                | Except.error m =>
                    Except.error ⟨"Errors occurred while building sequence run from sample sheet",
                      validation_result.add_error (ValidationErrorEntry.seqFileErrorEntry m)⟩
                | Except.ok sequencing_run => Except.ok sequencing_run

/-!
Concrete collaborator environments used by counterexamples and witnesses.
-/

/-- A concrete sequencing run used as the parse result in concrete environments. -/
def sampleRunExample : SequencingRun :=
  ⟨⟨[("Experiment Name", "run1")]⟩, [⟨"s1", "p1", ["s1_R1.fastq.gz"]⟩]⟩

/-- An environment in which every collaborator succeeds. -/
def happyEnv : ApiEnv :=
  { writePartialFails := false
    parseOutcome := ParseOutcome.ok sampleRunExample
    connectFails := false
    onlineOutcome := OnlineOutcome.result ⟨[]⟩
    uploadFails := false
    writeCompleteFails := false
    writeErrorFails := false }

/-- An environment in which establishing the API session raises IridaConnectionError. -/
def connectFailEnv : ApiEnv := { happyEnv with connectFails := true }

/-- An environment in which the upload stage raises IridaConnectionError. -/
def uploadFailEnv : ApiEnv := { happyEnv with uploadFails := true }

/-- An environment in which the initial PARTIAL marker write raises DirectoryError. -/
def markerWriteFailEnv : ApiEnv := { happyEnv with writePartialFails := true }

/-- An environment in which the final COMPLETE marker write raises DirectoryError. -/
def completeWriteFailEnv : ApiEnv := { happyEnv with writeCompleteFails := true }

/-!
Claim C1.
-/

/-- C1, counterexample: with the initial PARTIAL write succeeding and the
connection attempt failing, the orchestrator does return exit code 1, but the
status before the connection attempt was PARTIAL and the status on disk after
the failure is ERROR, not PARTIAL: `exit_error(directory)` rewrote the marker,
so the claim that the status is not rewritten is false at this input. -/
theorem c1_counterexample :
    (validate_and_upload_single_entry connectFailEnv none).exit = ExitOutcome.code 1 ∧
    (validate_and_upload_single_entry connectFailEnv none).finalStatus ≠
      some DirectoryStatus.PARTIAL ∧
    (validate_and_upload_single_entry connectFailEnv none).finalStatus =
      some DirectoryStatus.ERROR := by
  refine ⟨rfl, ?_, rfl⟩
  decide

/-- C1, amended: when establishing the remote API session fails with a
connection error, or connectivity is lost during online validation, the
orchestrator calls `exit_error(directory)`: it fails with exit code 1 and
rewrites the directory status marker to ERROR (assuming that ERROR write
itself succeeds). -/
theorem c1_amended (env : ApiEnv) (disk0 : Option DirectoryStatus) (r : SequencingRun)
    (hw : env.writePartialFails = false)
    (hp : env.parseOutcome = ParseOutcome.ok r)
    (he : env.writeErrorFails = false)
    (hc : env.connectFails = true ∨
      (env.connectFails = false ∧ env.onlineOutcome = OnlineOutcome.connLost)) :
    (validate_and_upload_single_entry env disk0).exit = ExitOutcome.code 1 ∧
    (validate_and_upload_single_entry env disk0).finalStatus = some DirectoryStatus.ERROR := by
  rcases hc with h | ⟨h1, h2⟩
  · simp [validate_and_upload_single_entry, exit_error, hw, hp, he, h]
  · simp [validate_and_upload_single_entry, exit_error, hw, hp, he, h1, h2]

/-- C1, witness: the amended claim at the concrete connection-failure
environment. -/
theorem c1_amended_witness :
    (validate_and_upload_single_entry connectFailEnv none).exit = ExitOutcome.code 1 ∧
    (validate_and_upload_single_entry connectFailEnv none).finalStatus =
      some DirectoryStatus.ERROR :=
  c1_amended connectFailEnv none sampleRunExample rfl rfl rfl (Or.inl rfl)

/-!
Claim C2.
-/

/-- C2, counterexample: on a directory whose persisted marker is COMPLETE, in
an environment where every stage succeeds, the orchestrator does invoke
`upload_sequencing_run`: the claim that it is never called is false. -/
theorem c2_counterexample :
    (validate_and_upload_single_entry happyEnv (some DirectoryStatus.COMPLETE)).uploadCalled
      = true := rfl

/-- C2, amended: `validate_and_upload_single_entry` never consults the
persisted marker — whether `upload_sequencing_run` is invoked is independent
of the prior status — and on a directory already marked COMPLETE whose stages
all succeed, the upload operation is invoked again. -/
theorem c2_amended (env : ApiEnv) (d d' : Option DirectoryStatus) :
    ((validate_and_upload_single_entry env d).uploadCalled
      = (validate_and_upload_single_entry env d').uploadCalled) ∧
    (validate_and_upload_single_entry happyEnv (some DirectoryStatus.COMPLETE)).uploadCalled
      = true := by
  refine ⟨?_, rfl⟩
  cases hwp : env.writePartialFails <;>
    simp [validate_and_upload_single_entry, hwp]

/-!
Claim C3.
-/

/-- C3: when connectivity is lost during the upload stage, after parsing,
connecting and online validation all succeeded, the orchestrator returns exit
code 1 and the directory marker remains PARTIAL (no status rewrite). -/
theorem c3_upload_connectivity_loss (env : ApiEnv) (disk0 : Option DirectoryStatus)
    (r : SequencingRun) (vr : ValidationResult)
    (hw : env.writePartialFails = false)
    (hp : env.parseOutcome = ParseOutcome.ok r)
    (hc : env.connectFails = false)
    (ho : env.onlineOutcome = OnlineOutcome.result vr)
    (hv : vr.is_valid = true)
    (hu : env.uploadFails = true) :
    (validate_and_upload_single_entry env disk0).exit = ExitOutcome.code 1 ∧
    (validate_and_upload_single_entry env disk0).finalStatus =
      some DirectoryStatus.PARTIAL := by
  simp [validate_and_upload_single_entry, hw, hp, hc, ho, hv, hu]

/-- C3, witness: the claim at the concrete upload-failure environment. -/
theorem c3_witness :
    (validate_and_upload_single_entry uploadFailEnv none).exit = ExitOutcome.code 1 ∧
    (validate_and_upload_single_entry uploadFailEnv none).finalStatus =
      some DirectoryStatus.PARTIAL :=
  c3_upload_connectivity_loss uploadFailEnv none sampleRunExample ⟨[]⟩
    rfl rfl rfl rfl rfl rfl

/-!
Claim C4.
-/

/-- C4, counterexample: a DirectoryError raised while scanning for the first
new run is re-raised by `upload_first_new_run` (`raise e` in the source), so
this domain error propagates as an unhandled exception instead of yielding a
defined exit code: the claim is false at this input. -/
theorem c4_counterexample :
    (upload_first_new_run (ScanOutcome.dirError "could not read" "/runs") happyEnv none).exit
      = ExitOutcome.unhandled PyExc.directoryError := rfl

/-- C4, amended: provided no status-marker write fails (a failing write
escapes as a TypeError from the mis-invoked `logging.ERROR`),
`validate_and_upload_single_entry` maps every domain error — parsing,
validation, connection, online validation, upload — to exit code 0 or 1, and
`upload_first_new_run` returns the success code 0 when no new run is found;
however a DirectoryError raised while scanning for runs is re-raised to the
caller rather than converted to an exit code. -/
theorem c4_amended (env : ApiEnv) (disk0 : Option DirectoryStatus)
    (h1 : env.writePartialFails = false)
    (h2 : env.writeErrorFails = false)
    (h3 : env.writeCompleteFails = false) :
    ((validate_and_upload_single_entry env disk0).exit = ExitOutcome.code 0 ∨
     (validate_and_upload_single_entry env disk0).exit = ExitOutcome.code 1) ∧
    (upload_first_new_run ScanOutcome.noneFound env disk0).exit = ExitOutcome.code 0 := by
  refine ⟨?_, rfl⟩
  rcases env with ⟨wp, po, cf, oo, uf, wc, we⟩
  simp only at h1 h2 h3
  subst h1; subst h2; subst h3
  cases po <;> cases cf <;> cases oo <;> cases uf <;>
    simp [validate_and_upload_single_entry, exit_error] <;>
    split <;> simp

/-- C4, witness: the amended claim at the all-success environment. -/
theorem c4_amended_witness :
    ((validate_and_upload_single_entry happyEnv none).exit = ExitOutcome.code 0 ∨
     (validate_and_upload_single_entry happyEnv none).exit = ExitOutcome.code 1) ∧
    (upload_first_new_run ScanOutcome.noneFound happyEnv none).exit = ExitOutcome.code 0 :=
  c4_amended happyEnv none rfl rfl rfl

/-!
Claim C5.
-/

/-- C5, code bug: when every stage up to and including the file transmission
succeeds but the final COMPLETE marker write raises DirectoryError, the
except-handler calls `logging.ERROR(...)` — the integer logging level, not a
function — so a TypeError propagates unhandled and the success exit code 0 is
never returned, although the upload was invoked and the marker remains PARTIAL. -/
theorem c5_complete_write_failure_raises :
    (validate_and_upload_single_entry completeWriteFailEnv none).exit
      = ExitOutcome.unhandled PyExc.typeError ∧
    (validate_and_upload_single_entry completeWriteFailEnv none).uploadCalled = true ∧
    (validate_and_upload_single_entry completeWriteFailEnv none).finalStatus
      = some DirectoryStatus.PARTIAL :=
  ⟨rfl, rfl, rfl⟩

/-!
Claim C6.
-/

/-- C6, code bug: when the initial PARTIAL marker write raises DirectoryError,
no further stage runs, nothing is uploaded, and the prior status on disk is
preserved — but the except-handler calls `logging.ERROR(...)`, the integer
logging level, so a TypeError propagates unhandled and the failure exit code 1
is never returned. -/
theorem c6_partial_write_failure_raises :
    (validate_and_upload_single_entry markerWriteFailEnv (some DirectoryStatus.ERROR)).exit
      = ExitOutcome.unhandled PyExc.typeError ∧
    (validate_and_upload_single_entry markerWriteFailEnv (some DirectoryStatus.ERROR)).uploadCalled
      = false ∧
    (validate_and_upload_single_entry markerWriteFailEnv (some DirectoryStatus.ERROR)).finalStatus
      = some DirectoryStatus.ERROR :=
  ⟨rfl, rfl, rfl⟩

/-!
Claim C10.
-/

/-- C10, code bug: `exit_error` with a run directory returns 1 when the ERROR
marker write succeeds, but when that write raises DirectoryError the handler
calls `logging.ERROR(...)` — the integer logging level — so a TypeError
propagates to the caller and 1 is never returned: the caught DirectoryError is
not swallowed into a normal return. -/
theorem c10_exit_error_write_failure_raises :
    exit_error true (some DirectoryStatus.PARTIAL) true
      = (ExitOutcome.unhandled PyExc.typeError, some DirectoryStatus.PARTIAL,
          [DirectoryStatus.ERROR]) ∧
    exit_error false (some DirectoryStatus.PARTIAL) true
      = (ExitOutcome.code 1, some DirectoryStatus.ERROR, [DirectoryStatus.ERROR]) ∧
    exit_error false (some DirectoryStatus.PARTIAL) false
      = (ExitOutcome.code 1, some DirectoryStatus.PARTIAL, []) :=
  ⟨rfl, rfl, rfl⟩

/-!
Claim C7. Two lemmas characterise the row loop of the sample stage; the claim
theorem combines them with the stage-exactness of `get_sequencing_run`.
-/

/-- The sample list produced by the row loop is exactly one sample per
resolvable row, in order: an unresolvable row does not abort the remaining
rows. -/
theorem parse_rows_fst (file_list : List String) (rows : List SampleRow) :
    (parse_rows file_list rows).1
      = (rows.filter (fun r => row_resolvable file_list r)).map
          (fun r => ⟨r.sample_id, r.project_id, r.file_names⟩) := by
  induction rows with
  | nil => rfl
  | cons r rest ih =>
      by_cases h : row_resolvable file_list r
      · simp [parse_rows, List.filter_cons, h, ih]
      · simp [parse_rows, List.filter_cons, h, ih]

/-- The error list produced by the row loop is exactly one SequenceFileError
entry per unresolvable row, in order. -/
theorem parse_rows_snd (file_list : List String) (rows : List SampleRow) :
    (parse_rows file_list rows).2
      = (rows.filter (fun r => row_resolvable file_list r = false)).map
          (fun r => ValidationErrorEntry.seqFileErrorEntry
            ("could not resolve sequence files for sample " ++ r.sample_id)) := by
  induction rows with
  | nil => rfl
  | cons r rest ih =>
      by_cases h : row_resolvable file_list r
      · simp [parse_rows, List.filter_cons, h, ih]
      · simp [parse_rows, List.filter_cons, h, ih]

/-- C7: in the parse-and-validate pipeline, (1) every resolvable sample is
parsed even when other rows fail, (2) all row-level file-resolution errors of
the sample stage are accumulated, one per unresolvable row, and surfaced
together, (3) a sheet-validation result is surfaced exactly as produced —
never replaced by a later stage (later stages do not run), (4) a data
directory error is surfaced as exactly that one error, and (5) when the
earlier stages pass, the sample stage surfaces exactly its accumulated row
errors. -/
theorem c7_pipeline_accumulation (file_list : List String) (sheet : SampleSheet)
    (dl : Except DirectoryErrorExc (List String)) :
    ((parse_rows file_list sheet.rows).1
        = (sheet.rows.filter (fun r => row_resolvable file_list r)).map
            (fun r => ⟨r.sample_id, r.project_id, r.file_names⟩))
    ∧ ((parse_rows file_list sheet.rows).2
        = (sheet.rows.filter (fun r => row_resolvable file_list r = false)).map
            (fun r => ValidationErrorEntry.seqFileErrorEntry
              ("could not resolve sequence files for sample " ++ r.sample_id)))
    ∧ ((validate_sample_sheet sheet).is_valid = false →
        get_sequencing_run sheet dl (some file_list)
          = Except.error ⟨"Errors occurred while getting sample sheet",
              validate_sample_sheet sheet⟩)
    ∧ (∀ e : DirectoryErrorExc, dl = Except.error e →
        get_sequencing_run sheet dl none
          = Except.error ⟨"Errors occurred while parsing files",
              ⟨[ValidationErrorEntry.dirErrorEntry e.message e.directory]⟩⟩)
    ∧ ((validate_sample_sheet sheet).is_valid = true →
       sheet.header_malformed = false →
       (parse_rows file_list sheet.rows).2 ≠ [] →
        get_sequencing_run sheet dl (some file_list)
          = Except.error ⟨"Errors occurred while building sequence run from sample sheet",
              ⟨(parse_rows file_list sheet.rows).2⟩⟩) := by
  refine ⟨parse_rows_fst file_list sheet.rows, parse_rows_snd file_list sheet.rows, ?_, ?_, ?_⟩
  · intro h
    simp [get_sequencing_run, h]
  · intro e he
    simp [get_sequencing_run, he, ValidationResult.add_error]
  · intro hv hm he
    simp [get_sequencing_run, hv, parse_sample_list, parse_metadata, hm,
      List.isEmpty_iff, he, ValidationResult.add_error]

/-- C7, witness: a concrete sheet with one resolvable and one unresolvable
row: the pipeline surfaces exactly the one accumulated row error at the end
of the sample stage. -/
theorem c7_witness :
    get_sequencing_run
        ⟨[("Experiment Name", "e")], false,
          [⟨"s1", "p1", ["a.fastq"]⟩, ⟨"s2", "p1", ["missing.fastq"]⟩]⟩
        (Except.ok []) (some ["a.fastq"])
      = Except.error ⟨"Errors occurred while building sequence run from sample sheet",
          ⟨[ValidationErrorEntry.seqFileErrorEntry
              "could not resolve sequence files for sample s2"]⟩⟩ := by
  have h := (c7_pipeline_accumulation ["a.fastq"]
      ⟨[("Experiment Name", "e")], false,
        [⟨"s1", "p1", ["a.fastq"]⟩, ⟨"s2", "p1", ["missing.fastq"]⟩]⟩
      (Except.ok [])).2.2.2.2 (by decide) rfl (by decide)
  simpa using h

/-!
Claim C8.
-/

/-- C8: `get_sample_sheet` fails with DirectoryError exactly when the
directory is not accessible or its file list has no entry named
SampleSheet.csv; otherwise it returns the join of the directory path with
SampleSheet.csv. -/
theorem c8_get_sample_sheet_spec (d : RunDirectory) :
    ((∃ e : DirectoryErrorExc, get_sample_sheet d = Except.error e) ↔
      (d.accessible = false ∨ SAMPLE_SHEET_FILE_NAME ∉ d.files))
    ∧ (d.accessible = true → SAMPLE_SHEET_FILE_NAME ∈ d.files →
        get_sample_sheet d = Except.ok (os_path_join d.path SAMPLE_SHEET_FILE_NAME)) := by
  constructor
  · by_cases ha : d.accessible = false
    · simp [get_sample_sheet, ha]
    · by_cases hf : SAMPLE_SHEET_FILE_NAME ∈ d.files
      · simp [get_sample_sheet, ha, hf]
      · simp [get_sample_sheet, ha, hf]
  · intro ha hf
    simp [get_sample_sheet, ha, hf]

/-- C8, witness: a concrete accessible directory containing SampleSheet.csv. -/
theorem c8_witness :
    get_sample_sheet ⟨"/runs/run1", true, ["SampleSheet.csv", "RTAComplete.txt"]⟩
      = Except.ok (os_path_join "/runs/run1" SAMPLE_SHEET_FILE_NAME) :=
  (c8_get_sample_sheet_spec ⟨"/runs/run1", true, ["SampleSheet.csv", "RTAComplete.txt"]⟩).2
    rfl (by decide)

/-!
Claim C9.
-/

/-- Whether a status is one of the three the orchestrator is allowed to
persist. -/
def orchestratorPersistable (s : DirectoryStatus) : Bool :=
  match s with
  | DirectoryStatus.PARTIAL => true
  | DirectoryStatus.ERROR => true
  | DirectoryStatus.COMPLETE => true
  | DirectoryStatus.NEW => false
  | DirectoryStatus.INVALID => false

/-- C9: every status either orchestrator entry point passes to
`write_directory_status` is PARTIAL, ERROR or COMPLETE; NEW and INVALID are
never written on any path. -/
theorem c9_only_three_statuses_written (env : ApiEnv) (disk0 : Option DirectoryStatus)
    (scan : ScanOutcome) :
    ((validate_and_upload_single_entry env disk0).writes.all orchestratorPersistable = true) ∧
    ((upload_first_new_run scan env disk0).writes.all orchestratorPersistable = true) := by
  have hv : ∀ (e : ApiEnv) (d : Option DirectoryStatus),
      (validate_and_upload_single_entry e d).writes.all orchestratorPersistable = true := by
    intro e d
    rcases e with ⟨wp, po, cf, oo, uf, wc, we⟩
    cases wp <;> cases po <;> cases cf <;> cases oo <;> cases uf <;> cases wc <;> cases we <;>
      simp [validate_and_upload_single_entry, exit_error, orchestratorPersistable] <;>
      split <;> simp [orchestratorPersistable]
  refine ⟨hv env disk0, ?_⟩
  cases scan with
  | dirError m dir => rfl
  | noneFound => rfl
  | found => exact hv env disk0

end IridaUploader
